import Mathlib

/-!
Verification development for the symbolic-execution core (pointer
predicates, statement IR well-formedness checks, symbolic-execution engine
counters, unwind policy and program-counter transition).

The expression IR (`exprt`) mirrors the C++ `irept`/`exprt` tree: a node
identifier, an optional constant value, a type and a list of operands.
Pointer-predicate builders are transcribed from
`src/util/pointer_predicates.cpp`; statement checks from
`src/util/std_code.h`; engine counters from `src/goto-symex/goto_symex.h`.
-/

/-- Types, mirroring `typet`. Only the type constructors used by the
pointer predicates are distinguished; `size_type()` is the unsigned
`__CPROVER_size_t`, `signed_size_type()` its signed counterpart. -/
inductive typet where
  | size_type
  | signed_size_type
  | bool_type
  | pointer (base : typet)
  | other (name : String)
deriving DecidableEq, Repr

/-- Constant payload of an expression node: `from_integer` produces a
numeric value, `null_pointer_exprt` the `NULL` value, all other nodes
carry no value. -/
inductive constant_valuet where
  | int_value (i : Int)
  | null_value
  | no_value
deriving DecidableEq, Repr

/-- Expression tree, mirroring `exprt`: node id (the `irep_idt`), constant
value (only meaningful on `constant` nodes), type, operands. -/
inductive exprt where
  | mk (id : String) (value : constant_valuet) (type : typet) (operands : List exprt)

namespace exprt

def id : exprt → String
  | .mk i _ _ _ => i

def value : exprt → constant_valuet
  | .mk _ v _ _ => v

def typeOf : exprt → typet
  | .mk _ _ t _ => t

def operands : exprt → List exprt
  | .mk _ _ _ ops => ops

end exprt

/-- Decidable equality on expression trees (structural). -/
def exprt.beq : exprt → exprt → Bool
  | .mk i1 v1 t1 ops1, .mk i2 v2 t2 ops2 =>
    i1 == i2 && v1 == v2 && t1 == t2 && beqList ops1 ops2
where beqList : List exprt → List exprt → Bool
  | [], [] => true
  | x :: xs, y :: ys => exprt.beq x y && beqList xs ys
  | _, _ => false

theorem exprt.beq_iff : ∀ a b : exprt, exprt.beq a b = true ↔ a = b := by
  have main :
      ∀ a b : exprt, (exprt.beq a b = true ↔ a = b) := by
    intro a
    induction a using exprt.rec
      (motive_2 := fun l => ∀ m, (exprt.beq.beqList l m = true ↔ l = m)) with
    | mk i v t ops ih =>
      intro b
      cases b with
      | mk i2 v2 t2 ops2 =>
        simp only [exprt.beq, Bool.and_eq_true, beq_iff_eq]
        rw [ih ops2]
        constructor
        · rintro ⟨⟨⟨h1, h2⟩, h3⟩, h4⟩; subst h1; subst h2; subst h3; subst h4; rfl
        · intro h; cases h; exact ⟨⟨⟨rfl, rfl⟩, rfl⟩, rfl⟩
    | nil =>
      rename_i m
      cases m <;> simp [exprt.beq.beqList]
    | cons x xs ihx ihxs =>
      rename_i m
      cases m with
      | nil => simp [exprt.beq.beqList]
      | cons y ys =>
        simp only [exprt.beq.beqList, Bool.and_eq_true]
        rw [ihx y, ihxs ys]
        constructor
        · rintro ⟨h1, h2⟩; subst h1; subst h2; rfl
        · intro h; cases h; exact ⟨rfl, rfl⟩
  exact main

instance : DecidableEq exprt := fun a b =>
  decidable_of_iff (exprt.beq a b = true) (exprt.beq_iff a b)

/-- The nil expression (`nil_exprt` / `irept` with id `nil`): used to pass
"no access size" / "no offset" to the bound predicates. -/
def nil_exprt : exprt := .mk "nil" .no_value (.other "nil") []

instance : Inhabited exprt := ⟨nil_exprt⟩

/-- `exprt::is_not_nil()`: the id is not `nil`. -/
def exprt.is_not_nil (e : exprt) : Bool := e.id ≠ "nil"

/-- `size_type()` from `c_types`. -/
def size_type : typet := typet.size_type

/-- `signed_size_type()` from `c_types`. -/
def signed_size_type : typet := typet.signed_size_type

/-- `from_integer(i, type)`: an integer constant of the given type. -/
def from_integer (i : Int) (t : typet) : exprt :=
  .mk "constant" (.int_value i) t []

/-- `null_pointer_exprt(pointer_type)`: the `NULL` constant of that
pointer type. -/
def null_pointer_exprt (t : typet) : exprt :=
  .mk "constant" .null_value t []

/-- `to_pointer_type`: in the C++ source this is a checked cast whose
PRECONDITION requires the type to be a pointer type and which returns the
very same type; modelled as the identity on types, with pointer-typedness
carried as a hypothesis in the theorems. -/
def to_pointer_type (t : typet) : typet := t

def typet.is_pointer : typet → Bool
  | .pointer _ => true
  | _ => false

/-- `equal_exprt(a, b)`: boolean equality node, id `=`. -/
def equal_exprt (a b : exprt) : exprt := .mk "=" .no_value .bool_type [a, b]

/-- `notequal_exprt(a, b)`: boolean disequality node, id `notequal`. -/
def notequal_exprt (a b : exprt) : exprt :=
  .mk "notequal" .no_value .bool_type [a, b]

/-- `and_exprt(a, b)`: boolean conjunction node. -/
def and_exprt (a b : exprt) : exprt := .mk "and" .no_value .bool_type [a, b]

/-- `plus_exprt(a, b)`: addition node; as in the C++ constructor its type
is the type of the first operand. -/
def plus_exprt (a b : exprt) : exprt := .mk "+" .no_value a.typeOf [a, b]

/-- `binary_relation_exprt(lhs, op, rhs)`: a boolean-typed relation node
whose id is the relation operator (`>`, `>=`, `<`, ...). -/
def binary_relation_exprt (lhs : exprt) (op : String) (rhs : exprt) : exprt :=
  .mk op .no_value .bool_type [lhs, rhs]

/-- `typecast_exprt(e, t)`. -/
def typecast_exprt (e : exprt) (t : typet) : exprt :=
  .mk "typecast" .no_value t [e]

/-- `typecast_exprt::conditional_cast(e, t)`: `e` itself when it already
has type `t`, otherwise a typecast node. -/
def conditional_cast (e : exprt) (t : typet) : exprt :=
  if e.typeOf = t then e else typecast_exprt e t

/-- `pointer_object(p)` from pointer_predicates.cpp:
`pointer_object_exprt(p, size_type())`. -/
def pointer_object (p : exprt) : exprt :=
  .mk "pointer_object" .no_value size_type [p]

/-- `same_object(p1, p2)` from pointer_predicates.cpp. -/
def same_object (p1 p2 : exprt) : exprt :=
  equal_exprt (pointer_object p1) (pointer_object p2)

/-- `object_size(pointer)` from pointer_predicates.cpp:
`object_size_exprt(pointer, size_type())`. -/
def object_size (pointer : exprt) : exprt :=
  .mk "object_size" .no_value size_type [pointer]

/-- `pointer_offset(pointer)` from pointer_predicates.cpp:
`pointer_offset_exprt(pointer, signed_size_type())`. -/
def pointer_offset (pointer : exprt) : exprt :=
  .mk "pointer_offset" .no_value signed_size_type [pointer]

/-- `null_object(pointer)` from pointer_predicates.cpp. -/
def null_object (pointer : exprt) : exprt :=
  same_object (null_pointer_exprt (to_pointer_type pointer.typeOf)) pointer

/-- `integer_address(pointer)` from pointer_predicates.cpp. -/
def integer_address (pointer : exprt) : exprt :=
  let null_pointer := null_pointer_exprt (to_pointer_type pointer.typeOf)
  and_exprt (same_object null_pointer pointer)
    (notequal_exprt null_pointer pointer)

/-- `object_upper_bound(pointer, access_size)` from
pointer_predicates.cpp: builds
`POINTER_OFFSET(p) + access_size > OBJECT_SIZE(p)` when an access size is
given (`is_not_nil`), and `POINTER_OFFSET(p) >= OBJECT_SIZE(p)` otherwise. -/
def object_upper_bound (pointer access_size : exprt) : exprt :=
  let object_size_expr := object_size pointer
  let object_offset := pointer_offset pointer
  let opsum : String × exprt :=
    if access_size.is_not_nil then
      (">",
        plus_exprt (conditional_cast object_offset access_size.typeOf)
          access_size)
    else
      (">=", object_offset)
  binary_relation_exprt
    (conditional_cast opsum.2 object_size_expr.typeOf) opsum.1
    object_size_expr

/-- `object_lower_bound(pointer, offset)` from pointer_predicates.cpp:
builds `POINTER_OFFSET(p) + offset < 0` when an extra offset is given
(`is_not_nil`), and `POINTER_OFFSET(p) < 0` otherwise. -/
def object_lower_bound (pointer offset : exprt) : exprt :=
  let p_offset := pointer_offset pointer
  let zero := from_integer 0 p_offset.typeOf
  let p_offset2 :=
    if offset.is_not_nil then
      plus_exprt p_offset (conditional_cast offset p_offset.typeOf)
    else p_offset
  binary_relation_exprt p_offset2 "<" zero

/-!
## Semantics of the built formulas

The pointer predicates are purely syntactic builders; to state that a
built formula "is true exactly when ..." we give the evident semantics of
the node kinds they emit, relative to a model interpreting the primitive
pointer functions (offset, object size, object identifier) on arbitrary
pointer subexpressions. Integer typecasts between the (mathematical-
integer) size types are value-preserving.
-/

/-- A semantic value: an integer or a boolean. -/
inductive valuet where
  | int_val (i : Int)
  | bool_val (b : Bool)
deriving DecidableEq, Repr

/-- A model interpreting the primitive pointer operators on arbitrary
pointer expressions. -/
structure pointer_modelt where
  offset_of : exprt → Int
  size_of : exprt → Int
  object_of : exprt → Int

/-- Evaluation of the expression nodes emitted by the pointer-predicate
builders. Nodes outside this fragment have no semantics (`none`). -/
def eval (M : pointer_modelt) : exprt → Option valuet
  | .mk "pointer_offset" _ _ [p] => some (.int_val (M.offset_of p))
  | .mk "object_size" _ _ [p] => some (.int_val (M.size_of p))
  | .mk "pointer_object" _ _ [p] => some (.int_val (M.object_of p))
  | .mk "constant" (.int_value i) _ [] => some (.int_val i)
  | .mk "typecast" _ _ [e] => eval M e
  | .mk "+" _ _ [a, b] =>
    match eval M a, eval M b with
    | some (.int_val x), some (.int_val y) => some (.int_val (x + y))
    | _, _ => none
  | .mk ">" _ _ [a, b] =>
    match eval M a, eval M b with
    | some (.int_val x), some (.int_val y) => some (.bool_val (decide (x > y)))
    | _, _ => none
  | .mk ">=" _ _ [a, b] =>
    match eval M a, eval M b with
    | some (.int_val x), some (.int_val y) => some (.bool_val (decide (x ≥ y)))
    | _, _ => none
  | .mk "<" _ _ [a, b] =>
    match eval M a, eval M b with
    | some (.int_val x), some (.int_val y) => some (.bool_val (decide (x < y)))
    | _, _ => none
  | .mk "=" _ _ [a, b] =>
    match eval M a, eval M b with
    | some (.int_val x), some (.int_val y) => some (.bool_val (decide (x = y)))
    | _, _ => none
  | _ => none

/-- A conditional cast is value-preserving: either no node is inserted, or
the inserted typecast node evaluates its operand transparently. -/
theorem eval_conditional_cast (M : pointer_modelt) (e : exprt) (t : typet) :
    eval M (conditional_cast e t) = eval M e := by
  unfold conditional_cast
  split
  · rfl
  · cases e with
    | mk i v ty ops => rfl

/-- Evaluation of a `pointer_offset` node. -/
theorem eval_pointer_offset (M : pointer_modelt) (p : exprt) :
    eval M (pointer_offset p) = some (valuet.int_val (M.offset_of p)) := rfl

/-- Evaluation of an `object_size` node. -/
theorem eval_object_size (M : pointer_modelt) (p : exprt) :
    eval M (object_size p) = some (valuet.int_val (M.size_of p)) := rfl

/-- Evaluation of a `pointer_object` node. -/
theorem eval_pointer_object (M : pointer_modelt) (p : exprt) :
    eval M (pointer_object p) = some (valuet.int_val (M.object_of p)) := rfl

/-- Evaluation of an integer constant node. -/
theorem eval_from_integer (M : pointer_modelt) (i : Int) (t : typet) :
    eval M (from_integer i t) = some (valuet.int_val i) := rfl

/-- Evaluation of an equality node. -/
theorem eval_equal (M : pointer_modelt) (a b : exprt) :
    eval M (equal_exprt a b) =
      match eval M a, eval M b with
      | some (.int_val x), some (.int_val y) => some (.bool_val (decide (x = y)))
      | _, _ => none := rfl

/-- Evaluation of a `+` node. -/
theorem eval_plus (M : pointer_modelt) (a b : exprt) :
    eval M (plus_exprt a b) =
      match eval M a, eval M b with
      | some (.int_val x), some (.int_val y) => some (.int_val (x + y))
      | _, _ => none := rfl

/-- Evaluation of a `>` relation node. -/
theorem eval_gt (M : pointer_modelt) (a b : exprt) :
    eval M (binary_relation_exprt a ">" b) =
      match eval M a, eval M b with
      | some (.int_val x), some (.int_val y) => some (.bool_val (decide (x > y)))
      | _, _ => none := rfl

/-- Evaluation of a `>=` relation node. -/
theorem eval_ge (M : pointer_modelt) (a b : exprt) :
    eval M (binary_relation_exprt a ">=" b) =
      match eval M a, eval M b with
      | some (.int_val x), some (.int_val y) => some (.bool_val (decide (x ≥ y)))
      | _, _ => none := rfl

/-- Evaluation of a `<` relation node. -/
theorem eval_lt (M : pointer_modelt) (a b : exprt) :
    eval M (binary_relation_exprt a "<" b) =
      match eval M a, eval M b with
      | some (.int_val x), some (.int_val y) => some (.bool_val (decide (x < y)))
      | _, _ => none := rfl

/-!
## Statement representation and well-formedness checks (std_code.h)
-/

/-- A code statement (`codet`): a statement id plus operand expressions.
(The C++ `codet` is an `irept` with id `code` and the statement kind in a
named sub; source location is irrelevant to the checks.) -/
structure codet where
  statement : String
  operands : List exprt
deriving DecidableEq

/-- `op0()`: first operand (front of the operand vector). Reading it is
only reached by the checks after the operand count has been validated. -/
def codet.op0 (c : codet) : exprt := c.operands.headD nil_exprt

/-- `op1()`: second operand. -/
def codet.op1 (c : codet) : exprt := c.operands.getD 1 nil_exprt

/-- `DATA_CHECK(vm, condition, message)`: reports the message when the
condition fails. In both validation modes (INVARIANT abort, exception) a
failure stops the sequence of checks, so a check function yields `ok` iff
every condition holds; we keep the first failing message. -/
def DATA_CHECK (condition : Bool) (message : String) : Except String Unit :=
  if condition then .ok () else .error message

/-- `code_assignt::check` (std_code.h): shallow check, operand count only. -/
def code_assign_check (code : codet) : Except String Unit :=
  DATA_CHECK (code.operands.length == 2) "assignment must have two operands"

/-- `code_assignt::validate` (std_code.h): the shallow check plus equality
of lhs and rhs types; a failing check stops the sequence. -/
def code_assign_validate (code : codet) : Except String Unit :=
  match code_assign_check code with
  | .error e => .error e
  | .ok () =>
    DATA_CHECK (code.op0.typeOf == code.op1.typeOf)
      "lhs and rhs of assignment must have same type"

mutual

/-- All nodes of an expression tree satisfy a node predicate. -/
def all_subexprs (V : exprt → Bool) : exprt → Bool
  | .mk i v t ops => V (.mk i v t ops) && all_subexprs_list V ops

/-- All nodes of all trees in a list satisfy a node predicate. -/
def all_subexprs_list (V : exprt → Bool) : List exprt → Bool
  | [] => true
  | x :: xs => all_subexprs V x && all_subexprs_list V xs

end

/-- Modelled from the spec: `validate_full_expr` (declared in
util/validate.h, definition not under src/) performs the "full check,
including checks of all subexpressions": it applies the per-node
expression well-formedness check `V` to every subexpression of the tree
and fails on the first node violating it. -/
def validate_full_expr (V : exprt → Bool) (e : exprt) : Except String Unit :=
  if all_subexprs V e then .ok () else .error "expression fails deep validation"

/-- Helper: run `validate_full_expr` over a list of operands in order
(the `for(const exprt &op : code.operands())` loop). -/
def validate_ops (V : exprt → Bool) : List exprt → Except String Unit
  | [] => .ok ()
  | x :: xs =>
    match validate_full_expr V x with
    | .error e => .error e
    | .ok () => validate_ops V xs

/-- `code_assignt::validate_full` (std_code.h): deep-validates every
operand, then runs `validate`. Parameterized by the per-node expression
check `V` used by `validate_full_expr`. -/
def code_assign_validate_full (V : exprt → Bool) (code : codet) :
    Except String Unit :=
  match validate_ops V code.operands with
  | .error e => .error e
  | .ok () => code_assign_validate code

/-- `code_declt::check` (std_code.h): at least one operand, and the first
operand is a symbol expression. Operands beyond the first are not
inspected. (On failure of the second condition the C++ builds its message
via `to_symbol_expr`, which itself aborts on a non-symbol; either way the
check does not succeed.) -/
def code_decl_check (code : codet) : Except String Unit :=
  match
    DATA_CHECK (code.operands.length ≥ 1)
      "declaration must have one or more operands" with
  | .error e => .error e
  | .ok () => DATA_CHECK (code.op0.id == "symbol") "declaring a non-symbol"

/-!
## Engine VCC counters (goto_symex.h)
-/

/-- `std::numeric_limits<unsigned>::max()` for the 32-bit `unsigned` of
the targeted platforms. -/
def unsigned_max : Nat := 2 ^ 32 - 1

/-- The fields of `goto_symext` relevant to the VCC counter contract: the
cached total/remaining verification-condition counters, plus the
`should_pause_symex` flag also set by the constructor. -/
structure goto_symext where
  should_pause_symex : Bool
  _total_vccs : Nat
  _remaining_vccs : Nat
deriving DecidableEq

/-- The `goto_symext` constructor (goto_symex.h, lines 81-100):
`should_pause_symex(false)`, `_total_vccs` and `_remaining_vccs`
initialized to `std::numeric_limits<unsigned>::max()`. -/
def goto_symext.init : goto_symext :=
  { should_pause_symex := false
    _total_vccs := unsigned_max
    _remaining_vccs := unsigned_max }

/-- `goto_symext::get_total_vccs` (goto_symex.h): INVARIANT that the
cached value differs from `unsigned` max (else the run aborts), then
return the cached value. An invariant violation is modelled as `error`. -/
def get_total_vccs (s : goto_symext) : Except String Nat :=
  if s._total_vccs = unsigned_max then
    .error
      "symex_threaded_step should have been executed at least once before attempting to read total_vccs"
  else
    .ok s._total_vccs

/-- `goto_symext::get_remaining_vccs` (goto_symex.h). -/
def get_remaining_vccs (s : goto_symext) : Except String Nat :=
  if s._remaining_vccs = unsigned_max then
    .error
      "symex_threaded_step should have been executed at least once before attempting to read remaining_vccs"
  else
    .ok s._remaining_vccs

/-- Modelled from the spec: `symex_threaded_step` (goto_symex.cpp, not
under src/) executes one symbolic-execution step and caches the state
total/remaining VCC counters into the engine members (`unsigned`
arithmetic, hence reduction mod 2^32), per the header comment "The members
below are used to cache the values from goto_symex_statet after symex". -/
def symex_threaded_step (s : goto_symext)
    (state_total_vccs state_remaining_vccs : Nat) : goto_symext :=
  { s with
    _total_vccs := state_total_vccs % 2 ^ 32
    _remaining_vccs := state_remaining_vccs % 2 ^ 32 }

/-!
## Unwind policy and the flow-insensitive recursion regression

The bodies of the engine (goto_symex.cpp / symex_main.cpp) are not under
src/; only the declarations (goto_symex.h) and the regression program
(regression/goto-analyzer/flow-insensitive-function-call-recursive/main.c)
are. The unwind policy and the flow-insensitive exploration of the
regression scenario are therefore modelled from the spec.
-/

/-- Modelled from the spec: `should_stop_unwind(call-site, stack, count)`
(declared goto_symex.h, definition absent from src/) "returns true (stop)
when `count` exceeds the configured bound for that call site, independent
of whether the recursive/loop condition is provably satisfiable". It
consults only the static count against the bound. -/
def should_stop_unwind (unwind_bound count : Nat) : Bool :=
  unwind_bound < count

/-- An abstract value of the flow-insensitive analysis: unreachable,
a known integer constant, or unknown. -/
inductive absvalt where
  | bot
  | int_const (n : Int)
  | top
deriving DecidableEq, Repr

/-- Join of abstract values (merge of the two branch results). -/
def absvalt.join : absvalt → absvalt → absvalt
  | .bot, y => y
  | .int_const m, .bot => .int_const m
  | .int_const m, .int_const n => if m = n then .int_const m else .top
  | .int_const _, .top => .top
  | .top, _ => .top

/-- Abstract addition of a concrete constant. -/
def absvalt.add_const (c : Int) : absvalt → absvalt
  | .bot => .bot
  | .int_const n => .int_const (n + c)
  | .top => .top

/-- Modelled from the spec: flow-insensitive exploration of the recursive
regression function `fun` (main.c: `fun(other)` returns `fun(other-1)+1`
when `other > 0` and `0` otherwise). Being flow-insensitive, the
exploration descends into the recursive branch regardless of whether the
branch condition is satisfiable for the abstract argument; the only brake
is the unwind-bound check, which fires once the static recursion count
exceeds the bound and then yields an unknown result for the refused call. -/
def explore_fun (unwind_bound : Nat) (count : Nat) (arg : absvalt) : absvalt :=
  if h : should_stop_unwind unwind_bound count then .top
  else
    (((explore_fun unwind_bound (count + 1) (arg.add_const (-1))).add_const 1).join
      (.int_const 0))
termination_by unwind_bound + 1 - count
decreasing_by
  simp [should_stop_unwind] at h
  omega

/-- Verdict of checking `assert(z == n)` against an abstract value. -/
inductive verdictt where
  | verified
  | refuted
  | unknown
deriving DecidableEq, Repr

/-- Modelled from the spec: the verdict the analysis reports for an
assertion `z == n` given the abstract value computed for `z`. -/
def assert_eq_verdict (z : absvalt) (n : Int) : verdictt :=
  match z with
  | .bot => .verified
  | .int_const m => if m = n then .verified else .refuted
  | .top => .unknown

/-!
## Program-counter transition (symex_transition)

`symex_transition` is declared in goto_symex.h (lines 640-650) with its
behaviour documented there; its definition (symex_main.cpp) is absent from
src/, so it is modelled from the spec and that doc comment.
-/

/-- The symbolic-state components relevant to program-counter advancement,
plus components (guard, renaming counter) that the advancement must be
independent of. -/
structure symex_statet where
  pc : Nat
  function_length : Nat
  guard : Bool
  renaming_counter : Nat
deriving DecidableEq, Repr

/-- Modelled from the spec: `symex_transition(state)` (declared
goto_symex.h lines 640-645, definition absent from src/) — "Transition to
the next instruction, which increments the internal program counter ...
Next instruction in this situation refers to the next one in program
order, so it ignores things like unconditional GOTOs, and only goes until
the end of the current function." The target never passes the end of the
current function instruction sequence. -/
def symex_transition (st : symex_statet) : symex_statet :=
  { st with pc := min (st.pc + 1) st.function_length }

/-!
## Concrete inputs used by witnesses and counterexamples
-/

/-- A concrete pointer-typed symbol expression. -/
def p0 : exprt := .mk "symbol" .no_value (typet.pointer (.other "char")) []

/-- A concrete nonzero access-size expression. -/
def s4 : exprt := from_integer 4 size_type

/-- A concrete zero access-size expression (given, but zero). -/
def zero_access : exprt := from_integer 0 size_type

/-- A concrete extra-offset expression. -/
def o2 : exprt := from_integer 2 signed_size_type

/-- A concrete model: every pointer expression has offset 4, object size 4,
object identifier 0. -/
def M0 : pointer_modelt :=
  { offset_of := fun _ => 4, size_of := fun _ => 4, object_of := fun _ => 0 }

/-- A concrete non-pointer symbol expression. -/
def sym_x : exprt := .mk "symbol" .no_value (.other "signedbv") []

/-!
## Claims about the pointer predicates
-/

/-- C4: `same_object`, `object_upper_bound` and `object_lower_bound` are
pure functions of their argument expressions (their embeddings consume
only the argument expressions, mirroring the C++ signatures, which take
no state and no value-set): structurally identical arguments yield
structurally identical formulas, and `same_object(p, p)` is an equality
between two identical pointer-object terms, hence trivially true in every
model. -/
theorem pointer_predicates_pure_idempotent (p q s o : exprt)
    (M : pointer_modelt) (hpq : p = q) :
    same_object p p = equal_exprt (pointer_object p) (pointer_object p) ∧
    eval M (same_object p p) = some (valuet.bool_val true) ∧
    same_object p s = same_object q s ∧
    object_upper_bound p s = object_upper_bound q s ∧
    object_lower_bound p o = object_lower_bound q o := by
  subst hpq
  refine ⟨rfl, ?_, rfl, rfl, rfl⟩
  rw [same_object, eval_equal, eval_pointer_object]
  simp

/-- C4 witness: the theorem at concrete inputs. -/
theorem pointer_predicates_pure_idempotent_witness :
    same_object p0 p0 = equal_exprt (pointer_object p0) (pointer_object p0) ∧
    eval M0 (same_object p0 p0) = some (valuet.bool_val true) ∧
    same_object p0 s4 = same_object p0 s4 ∧
    object_upper_bound p0 s4 = object_upper_bound p0 s4 ∧
    object_lower_bound p0 o2 = object_lower_bound p0 o2 :=
  pointer_predicates_pure_idempotent p0 p0 s4 o2 M0 rfl

/-- C1 (amended): `object_upper_bound(p, s)` builds the out-of-bounds-above
formula, true exactly when `offset + s > size`, using the strict `>`
whenever an access-size expression is given (non-nil) — even when that
expression is zero — and builds `offset >= size` only when no access size
is given (nil). -/
theorem object_upper_bound_build (p s : exprt) (M : pointer_modelt)
    (sv : Int) :
    ((object_upper_bound p s).id = if s.is_not_nil then ">" else ">=") ∧
    (s.is_not_nil = true → eval M s = some (valuet.int_val sv) →
      eval M (object_upper_bound p s) =
        some (valuet.bool_val (decide (M.offset_of p + sv > M.size_of p)))) ∧
    (s.is_not_nil = false →
      eval M (object_upper_bound p s) =
        some (valuet.bool_val (decide (M.offset_of p ≥ M.size_of p)))) := by
  refine ⟨?_, ?_, ?_⟩
  · cases h : s.is_not_nil <;>
      simp [object_upper_bound, h, binary_relation_exprt, exprt.id]
  · intro h hs
    simp only [object_upper_bound, h, if_true]
    rw [eval_gt, eval_conditional_cast, eval_plus, eval_conditional_cast,
      eval_pointer_offset, eval_object_size, hs]
  · intro h
    simp only [object_upper_bound, h, Bool.false_eq_true, if_false]
    rw [eval_ge, eval_conditional_cast, eval_pointer_offset, eval_object_size]

/-- C1 witness: a given nonzero access size at a concrete input. -/
theorem object_upper_bound_build_witness :
    s4.is_not_nil = true ∧
    eval M0 (object_upper_bound p0 s4) = some (valuet.bool_val true) := by
  refine ⟨by decide, ?_⟩
  have h := (object_upper_bound_build p0 s4 M0 4).2.1 (by decide) (by decide)
  rw [h]
  decide

/-- C1 counterexample: with a *given but zero* access size the claim, as
stated, requires the `offset >= size` formula, which would be true at
offset = size = 4; the code instead builds the strict formula
`offset + 0 > size`, which is false there. -/
theorem object_upper_bound_zero_access_size_counterexample :
    zero_access.is_not_nil = true ∧
    eval M0 zero_access = some (valuet.int_val 0) ∧
    (object_upper_bound p0 zero_access).id = ">" ∧
    eval M0 (object_upper_bound p0 zero_access) =
      some (valuet.bool_val false) ∧
    decide (M0.offset_of p0 ≥ M0.size_of p0) = true := by
  decide

/-- C5: `object_lower_bound(p, o)` builds the out-of-bounds-below formula
`pointerOffset(p) + o < 0` when an extra offset is given (and just
`pointerOffset(p) < 0` when none is), true exactly when the adjusted
offset is negative. -/
theorem object_lower_bound_semantics (p o : exprt) (M : pointer_modelt)
    (ov : Int) :
    ((object_lower_bound p o).id = "<") ∧
    (o.is_not_nil = true → eval M o = some (valuet.int_val ov) →
      eval M (object_lower_bound p o) =
        some (valuet.bool_val (decide (M.offset_of p + ov < 0)))) ∧
    (o.is_not_nil = false →
      eval M (object_lower_bound p o) =
        some (valuet.bool_val (decide (M.offset_of p < 0)))) := by
  refine ⟨?_, ?_, ?_⟩
  · cases h : o.is_not_nil <;>
      simp [object_lower_bound, h, binary_relation_exprt, exprt.id]
  · intro h ho
    simp only [object_lower_bound, h, if_true]
    rw [eval_lt, eval_plus, eval_pointer_offset, eval_conditional_cast, ho,
      eval_from_integer]
  · intro h
    simp only [object_lower_bound, h, Bool.false_eq_true, if_false]
    rw [eval_lt, eval_pointer_offset, eval_from_integer]

/-- C5 witness: a given extra offset at a concrete input. -/
theorem object_lower_bound_semantics_witness :
    o2.is_not_nil = true ∧
    eval M0 (object_lower_bound p0 o2) = some (valuet.bool_val false) := by
  refine ⟨by decide, ?_⟩
  have h := (object_lower_bound_semantics p0 o2 M0 2).2.1 (by decide) (by decide)
  rw [h]
  decide

/-- C6: for a pointer-typed expression `p`, `integer_address(p)` is
exactly the conjunction of "`p` has the same object as the null pointer of
`p` itself" (which is the `null_object` predicate) and "`p` is not
bit-equal to that null pointer". -/
theorem integer_address_null_conjunction (p : exprt)
    (h : p.typeOf.is_pointer = true) :
    integer_address p =
      and_exprt (null_object p)
        (notequal_exprt (null_pointer_exprt (to_pointer_type p.typeOf)) p) ∧
    (integer_address p).id = "and" ∧
    (integer_address p).operands =
      [same_object (null_pointer_exprt (to_pointer_type p.typeOf)) p,
        notequal_exprt (null_pointer_exprt (to_pointer_type p.typeOf)) p] :=
  ⟨rfl, rfl, rfl⟩

/-- C6 witness: the theorem at a concrete pointer-typed expression. -/
theorem integer_address_null_conjunction_witness :
    integer_address p0 =
      and_exprt (null_object p0)
        (notequal_exprt (null_pointer_exprt (to_pointer_type p0.typeOf)) p0) ∧
    (integer_address p0).id = "and" ∧
    (integer_address p0).operands =
      [same_object (null_pointer_exprt (to_pointer_type p0.typeOf)) p0,
        notequal_exprt (null_pointer_exprt (to_pointer_type p0.typeOf)) p0] :=
  integer_address_null_conjunction p0 (by decide)

/-!
## Claims about the statement well-formedness checks
-/

/-- `validate_ops` succeeds iff every operand passes deep validation. -/
theorem validate_ops_ok (V : exprt → Bool) (l : List exprt) :
    validate_ops V l = .ok () ↔ ∀ x ∈ l, all_subexprs V x = true := by
  induction l with
  | nil => simp [validate_ops]
  | cons x xs ih =>
    by_cases hx : all_subexprs V x = true
    · simp [validate_ops, validate_full_expr, hx, ih]
    · simp [validate_ops, validate_full_expr, hx]

/-- C8: for any `codet`, the shallow `code_assignt::check` succeeds exactly
when the operand count is 2 (and inspects nothing else — the iff holds for
arbitrary statement ids and operand contents); `validate` additionally
requires lhs and rhs to have the same type; only `validate_full` also
requires every subexpression of both operands to pass the expression
check. -/
theorem code_assign_check_levels (V : exprt → Bool) (code : codet) :
    (code_assign_check code = .ok () ↔ code.operands.length = 2) ∧
    (code_assign_validate code = .ok () ↔
      code.operands.length = 2 ∧ code.op0.typeOf = code.op1.typeOf) ∧
    (code_assign_validate_full V code = .ok () ↔
      (∀ op ∈ code.operands, all_subexprs V op = true) ∧
      code.operands.length = 2 ∧ code.op0.typeOf = code.op1.typeOf) := by
  have hcheck : code_assign_check code = .ok () ↔ code.operands.length = 2 := by
    by_cases h : code.operands.length = 2
    · simp [code_assign_check, DATA_CHECK, h]
    · simp [code_assign_check, DATA_CHECK, h]
  have hvalidate : code_assign_validate code = .ok () ↔
      code.operands.length = 2 ∧ code.op0.typeOf = code.op1.typeOf := by
    by_cases h : code.operands.length = 2
    · have hok : code_assign_check code = .ok () := hcheck.mpr h
      by_cases ht : code.op0.typeOf = code.op1.typeOf
      · simp [code_assign_validate, hok, DATA_CHECK, h, ht]
      · simp [code_assign_validate, hok, DATA_CHECK, h, ht]
    · have : ¬ code_assign_check code = .ok () := fun hc => h (hcheck.mp hc)
      rcases he : code_assign_check code with e | u
      · simp [code_assign_validate, he, h]
      · exact absurd (by rw [he]) this
  refine ⟨hcheck, hvalidate, ?_⟩
  by_cases hops : validate_ops V code.operands = .ok ()
  · rw [validate_ops_ok] at hops
    simp [code_assign_validate_full, (validate_ops_ok V code.operands).mpr hops,
      hvalidate, hops]
    exact fun _ _ => hops
  · have hops2 : ¬ ∀ x ∈ code.operands, all_subexprs V x = true := by
      rw [← validate_ops_ok (V := V)]; exact hops
    rcases he : validate_ops V code.operands with e | u
    · simp [code_assign_validate_full, he, hops2]
    · exact absurd (by rw [he]) hops

/-- C9: `code_declt::check` succeeds exactly when the statement has at
least one operand whose first operand is a symbol expression; operands
beyond the first are accepted without any check, so appending extra
operands to a well-formed declaration keeps it well-formed. -/
theorem code_decl_check_lenient (code : codet) (extras : List exprt) :
    (code_decl_check code = .ok () ↔
      code.operands.length ≥ 1 ∧ code.op0.id = "symbol") ∧
    (code_decl_check code = .ok () →
      code_decl_check ⟨code.statement, code.operands ++ extras⟩ = .ok ()) := by
  have hiff : ∀ c : codet, code_decl_check c = .ok () ↔
      c.operands.length ≥ 1 ∧ c.op0.id = "symbol" := by
    intro c
    by_cases h1 : c.operands.length ≥ 1
    · by_cases h2 : c.op0.id = "symbol"
      · simp [code_decl_check, DATA_CHECK, h1, h2]
      · simp [code_decl_check, DATA_CHECK, h1, h2]
    · simp [code_decl_check, DATA_CHECK, h1]
  refine ⟨hiff code, fun hok => ?_⟩
  rcases (hiff code).mp hok with ⟨hlen, hsym⟩
  apply (hiff _).mpr
  cases hops : code.operands with
  | nil => rw [hops] at hlen; simp at hlen
  | cons x xs =>
    have hsym2 : x.id = "symbol" := by
      simpa [codet.op0, hops] using hsym
    constructor
    · simp
    · simpa [codet.op0] using hsym2

/-- C9 witness: a one-operand declaration of a symbol is well-formed, and
appending two extra (unchecked) operands keeps it well-formed. -/
theorem code_decl_check_lenient_witness :
    code_decl_check ⟨"decl", [sym_x]⟩ = .ok () ∧
    code_decl_check ⟨"decl", [sym_x] ++ [zero_access, p0]⟩ = .ok () := by
  have h := code_decl_check_lenient ⟨"decl", [sym_x]⟩ [zero_access, p0]
  have hok : code_decl_check ⟨"decl", [sym_x]⟩ = .ok () :=
    h.1.mpr ⟨by decide, by decide⟩
  exact ⟨hok, h.2 hok⟩

/-!
## Claims about the VCC counters
-/

/-- C2 (amended): on a freshly constructed `goto_symext` both VCC getters
fail with the invariant violation; after a `symex_threaded_step` has
executed, both getters return the cached counter values, provided the
cached (unsigned) value is not the sentinel `2^32 - 1` — a run whose
cached count equals the sentinel still aborts (see the counterexample). -/
theorem vcc_getters_before_and_after_step (s : goto_symext) (t r : Nat)
    (ht : t % 2 ^ 32 ≠ unsigned_max) (hr : r % 2 ^ 32 ≠ unsigned_max) :
    (get_total_vccs goto_symext.init).toOption = none ∧
    (get_remaining_vccs goto_symext.init).toOption = none ∧
    get_total_vccs (symex_threaded_step s t r) = .ok (t % 2 ^ 32) ∧
    get_remaining_vccs (symex_threaded_step s t r) = .ok (r % 2 ^ 32) := by
  refine ⟨?_, ?_, ?_, ?_⟩
  · simp [get_total_vccs, goto_symext.init, Except.toOption]
  · simp [get_remaining_vccs, goto_symext.init, Except.toOption]
  · simp only [get_total_vccs, symex_threaded_step]
    rw [if_neg ht]
  · simp only [get_remaining_vccs, symex_threaded_step]
    rw [if_neg hr]

/-- C2 witness: the theorem at a concrete engine and counter values. -/
theorem vcc_getters_before_and_after_step_witness :
    get_total_vccs (symex_threaded_step goto_symext.init 5 3) =
      .ok (5 % 2 ^ 32) ∧
    get_remaining_vccs (symex_threaded_step goto_symext.init 5 3) =
      .ok (3 % 2 ^ 32) := by
  have h :=
    vcc_getters_before_and_after_step goto_symext.init 5 3 (by decide) (by decide)
  exact ⟨h.2.2.1, h.2.2.2⟩

/-- C2 counterexample: an engine on which a step HAS executed, caching a
total-VCC count of exactly `2^32 - 1`, still aborts in `get_total_vccs`
instead of returning the cached value (while the remaining-VCC getter of
the same engine does return its cached 3). -/
theorem vcc_getter_sentinel_cached_counterexample :
    (get_total_vccs
      (symex_threaded_step goto_symext.init (2 ^ 32 - 1) 3)).toOption = none ∧
    (symex_threaded_step goto_symext.init (2 ^ 32 - 1) 3)._total_vccs =
      2 ^ 32 - 1 ∧
    (get_remaining_vccs
      (symex_threaded_step goto_symext.init (2 ^ 32 - 1) 3)).toOption =
      some 3 := by
  decide

/-- C10: the constructor initializes both cached VCC counters to the
maximum unsigned value `2^32 - 1` as the "not yet run" sentinel; each
getter aborts exactly when its cached value equals `2^32 - 1`; and a step
that caches exactly that count leaves the engine literally equal to a
freshly constructed one — the two are indistinguishable. -/
theorem vcc_sentinel_exact (s : goto_symext) :
    unsigned_max = 2 ^ 32 - 1 ∧
    goto_symext.init._total_vccs = unsigned_max ∧
    goto_symext.init._remaining_vccs = unsigned_max ∧
    ((get_total_vccs s).toOption = none ↔ s._total_vccs = unsigned_max) ∧
    ((get_remaining_vccs s).toOption = none ↔
      s._remaining_vccs = unsigned_max) ∧
    symex_threaded_step goto_symext.init unsigned_max unsigned_max =
      goto_symext.init := by
  refine ⟨rfl, rfl, rfl, ?_, ?_, by decide⟩
  · unfold get_total_vccs
    split
    · rename_i h; simp [Except.toOption, h]
    · rename_i h; simp [Except.toOption, h]
  · unfold get_remaining_vccs
    split
    · rename_i h; simp [Except.toOption, h]
    · rename_i h; simp [Except.toOption, h]

/-!
## Claims about the engine control flow
-/

/-- C3: in the regression scenario (`fun(n)` recursing until `n <= 0`,
invoked as `fun(0)`, unwind bound 0, flow-insensitive recursion checking),
the bound check does not fire on the initial call (count 0) but fires on
the first recursive re-entry (count 1), so the engine executes one level
of the call before refusing the recursion; the refused recursive call
yields an unknown value, so the final assertion `z == 0` is reported
unknown/unverified rather than the exploration being refused outright. -/
theorem flow_insensitive_recursion_regression :
    should_stop_unwind 0 0 = false ∧
    should_stop_unwind 0 1 = true ∧
    explore_fun 0 0 (absvalt.int_const 0) = absvalt.top ∧
    assert_eq_verdict (explore_fun 0 0 (absvalt.int_const 0)) 0 =
      verdictt.unknown := by
  have h1 : explore_fun 0 1 (absvalt.int_const (-1)) = absvalt.top := by
    rw [explore_fun]
    simp [should_stop_unwind]
  have h0 : explore_fun 0 0 (absvalt.int_const 0) = absvalt.top := by
    rw [explore_fun]
    simp [should_stop_unwind, absvalt.add_const, h1, absvalt.join]
  exact ⟨by decide, by decide, h0, by rw [h0]; rfl⟩

/-- C7: for an instruction with no incoming back-edge, the program counter
produced by `symex_transition` is a deterministic function of the current
instruction position and program order alone — two states at the same
position in the same function (with different guards and renaming
counters) advance to the same next position, which is the next one in
program order, never past the end of the current function. -/
theorem symex_transition_deterministic_pc (s1 s2 : symex_statet)
    (hpc : s1.pc = s2.pc) (hlen : s1.function_length = s2.function_length) :
    (symex_transition s1).pc = (symex_transition s2).pc ∧
    (symex_transition s1).pc = min (s1.pc + 1) s1.function_length ∧
    (symex_transition s1).pc ≤ s1.function_length := by
  refine ⟨?_, rfl, ?_⟩
  · simp [symex_transition, hpc, hlen]
  · simp only [symex_transition]
    omega

/-- C7 witness: two states at the same position whose guards and renaming
counters differ advance identically. -/
theorem symex_transition_deterministic_pc_witness :
    (symex_transition ⟨2, 5, true, 0⟩).pc =
      (symex_transition ⟨2, 5, false, 7⟩).pc ∧
    (symex_transition ⟨2, 5, true, 0⟩).pc = min ((2 : Nat) + 1) 5 ∧
    (symex_transition ⟨2, 5, true, 0⟩).pc ≤ 5 :=
  symex_transition_deterministic_pc ⟨2, 5, true, 0⟩ ⟨2, 5, false, 7⟩ rfl rfl
